import Mathlib

/-!
Verification development for the spawn-notification scheduler
(`scheduler_manager.py`, `bot.py`, `config.py`).

The embedding models wall-clock datetimes in the single reference
timezone (Europe/Bucharest) as civil field records; datetime comparison
and subtraction on two values carrying the same timezone offset reduce
to comparison/subtraction of the civil fields, which we realise through
an epoch-seconds valuation (standard civil-from-days arithmetic).
Python's floor division `//` on the nonnegative quantities involved is
`Int.fdiv`, and `% 24` on a nonnegative value is `Int.emod`.
-/

/-- A civil datetime in the reference timezone, second resolution
(the code zeroes `second`/`microsecond` on every anchor value it builds;
microseconds of `now` never influence any branch at second granularity). -/
structure DateTime where
  year : Int
  month : Nat
  day : Nat
  hour : Nat
  minute : Nat
  second : Nat
  deriving Repr, DecidableEq

/-- Leap-year test of the proleptic Gregorian calendar (what
`datetime.replace` validates `day` against). -/
def isLeap (y : Int) : Bool :=
  (y.emod 4 == 0 && y.emod 100 != 0) || y.emod 400 == 0

/-- Number of days in a month, used by `datetime.replace(day=...)` to
decide whether the new day is in range. -/
def daysInMonth (y : Int) (m : Nat) : Nat :=
  if m == 2 then (if isLeap y then 29 else 28)
  else if m == 4 || m == 6 || m == 9 || m == 11 then 30
  else 31

/-- Days from 1970-01-01 to the given civil date (civil-from-days
inverse direction, Gregorian calendar). -/
def daysFromCivil (y : Int) (m d : Nat) : Int :=
  let y2 : Int := if m ≤ 2 then y - 1 else y
  let era : Int := Int.fdiv y2 400
  let yoe : Int := y2 - era * 400
  let mp : Nat := if 2 < m then m - 3 else m + 9
  let doy : Int := (153 * (mp : Int) + 2).fdiv 5 + (d : Int) - 1
  let doe : Int := yoe * 365 + yoe.fdiv 4 - yoe.fdiv 100 + doy
  era * 146097 + doe - 719468

/-- Epoch-seconds valuation of a civil datetime: how aware datetimes
sharing one fixed offset compare and subtract. -/
def toEpochSecs (t : DateTime) : Int :=
  86400 * daysFromCivil t.year t.month t.day
    + 3600 * (t.hour : Int) + 60 * (t.minute : Int) + (t.second : Int)

/-- The first-fire computation of `SpawnSchedulerManager._add_spawn_schedule`
(scheduler_manager.py lines 58-82), parametrised by the configured anchor
time-of-day (`START_TIME`, 12:10 in config.py) and the spec's
`interval_hours`.  Mirrors the source exactly:

* `start_datetime = now.replace(hour=anchorHour, minute=anchorMinute, second=0, microsecond=0)`
* if `start_datetime <= now`: `hours_passed = (now - start_datetime).total_seconds()/3600`;
  `intervals_passed = int(hours_passed // interval_hours) + 1`
  (Python raises `ZeroDivisionError` when `interval_hours == 0`);
* `start_datetime = start_datetime.replace(hour=(anchorHour + intervals_passed*interval_hours) % 24)`;
* if that total hour is `>= 24`, `start_datetime = start_datetime.replace(day=day + days_to_add, hour=... % 24)`,
  where `datetime.replace` raises `ValueError` when the new day is out of
  range for the month. -/
def resolveFirstFire (anchorHour anchorMinute : Nat) (intervalHours : Int)
    (now : DateTime) : Except String DateTime :=
  let start0 : DateTime :=
    { now with hour := anchorHour, minute := anchorMinute, second := 0 }
  if toEpochSecs start0 ≤ toEpochSecs now then
    if intervalHours = 0 then
      Except.error "ZeroDivisionError: float floor division by zero"
    else
      let secondsPassed : Int := toEpochSecs now - toEpochSecs start0
      let intervalsPassed : Int :=
        (secondsPassed.fdiv (3600 * intervalHours)) + 1
      let newHourTotal : Int := (anchorHour : Int) + intervalsPassed * intervalHours
      let start1 : DateTime := { start0 with hour := (newHourTotal.emod 24).toNat }
      if 24 ≤ newHourTotal then
        let daysToAdd : Int := newHourTotal.fdiv 24
        let newDay : Int := (start1.day : Int) + daysToAdd
        if 1 ≤ newDay ∧ newDay ≤ (daysInMonth start1.year start1.month : Int) then
          Except.ok { start1 with day := newDay.toNat }
        else
          Except.error "ValueError: day is out of range for month"
      else
        Except.ok start1
  else
    Except.ok start0

/-- An `IntervalTrigger(hours=intervalHours, start_date=...)` as registered
by `_add_spawn_schedule`: its fire sequence in absolute time is
`startEpoch + n * intervalHours * 3600` for `n = 0, 1, 2, ...`. -/
structure IntervalTriggerE where
  startEpoch : Int
  intervalHours : Int
  deriving Repr, DecidableEq

/-- Absolute time of the `n`-th fire of an interval trigger. -/
def nthFire (t : IntervalTriggerE) (n : Nat) : Int :=
  t.startEpoch + (n : Int) * (3600 * t.intervalHours)

/-- The trigger pair built by `_add_spawn_schedule` (lines 84-100): the
warning trigger starts at the resolved first fire, and the follow-up
trigger starts at `start_datetime + timedelta(minutes=5)` — a timedelta
addition, i.e. the same absolute instant shifted by exactly 300 seconds —
both with the same `interval_hours`. -/
def addSpawnSchedule (anchorHour anchorMinute : Nat) (intervalHours : Int)
    (now : DateTime) : Except String (IntervalTriggerE × IntervalTriggerE) :=
  match resolveFirstFire anchorHour anchorMinute intervalHours now with
  | Except.error e => Except.error e
  | Except.ok start =>
      let s := toEpochSecs start
      Except.ok (⟨s, intervalHours⟩, ⟨s + 300, intervalHours⟩)

/-- A `ScheduledJob` of the registry: id, next fire time (epoch seconds),
period, and the `running` flag that is true while its callback executes.
The firing policy constants of `add_job` (scheduler_manager.py lines
102-124) — `misfire_grace_time=60`, `coalesce=True`, `max_instances=1` —
are baked into `firingProtocol` below. -/
structure Job where
  id : String
  nextFire : Int
  intervalHours : Int
  running : Bool
  deriving Repr, DecidableEq

/-- `SpawnSchedulerManager._send_spawn_notification`
(scheduler_manager.py lines 133-147): logs, awaits the injected message
callback inside `try`, and catches every exception, logging the failure.
The result is the list of log lines; an `Except.error` result would mean
an exception escaped into the scheduler — which never happens. -/
def sendSpawnNotification (spawnName : String)
    (callbackResult : Except String Unit) : Except String (List String) :=
  match callbackResult with
  | Except.ok _ =>
      Except.ok ["Sending " ++ spawnName ++ " spawn notification",
                 "Successfully sent " ++ spawnName ++ " notification"]
  | Except.error e =>
      Except.ok ["Sending " ++ spawnName ++ " spawn notification",
                 "Failed to send " ++ spawnName ++ " notification: " ++ e]

/-- Modelled from the spec: the firing protocol of the Job Registry
(§4.3 steps 1-3) with the policy constants the source passes to
`add_job` (`misfire_grace_time=60`, `coalesce=True`, `max_instances=1`).
The executor that enforces these lives in the external scheduling
library, not under `src/`; only its configuration is in the source.
Invoked when a job's due time is evaluated at absolute time `now`;
`regRunning` is the registry running flag, `cb` the outcome the injected
dispatch callback would produce.  Returns the registry flag, the updated
job, and the number of notifications dispatched. -/
def firingProtocol (regRunning : Bool) (j : Job) (now : Int)
    (cb : Except String Unit) : Except String (Bool × Job × Nat) :=
  let step : Int := 3600 * j.intervalHours
  if j.running then
    -- step 1: previous invocation still executing — skip entirely, do not queue
    Except.ok (regRunning, { j with nextFire := j.nextFire + step }, 0)
  else if now < j.nextFire then
    -- not yet due: nothing happens
    Except.ok (regRunning, j, 0)
  else if 60 < now - j.nextFire ∧ j.nextFire + step ≤ now then
    -- step 2: late past the misfire grace with a later occurrence also due —
    -- coalesce: fire once, advance past all missed occurrences
    match sendSpawnNotification j.id cb with
    | Except.error e => Except.error e
    | Except.ok _ =>
        Except.ok (regRunning,
          { j with
            nextFire := j.nextFire + (((now - j.nextFire).fdiv step) + 1) * step,
            running := false }, 1)
  else
    -- step 3: normal fire — dispatch, then advance by one interval
    match sendSpawnNotification j.id cb with
    | Except.error e => Except.error e
    | Except.ok _ =>
        Except.ok (regRunning,
          { j with nextFire := j.nextFire + step, running := false }, 1)

/-- Modelled from the spec: the registry's id-collision check at
registration (§4.3 `registerJobs`; contributed by the external scheduling
library's `add_job`, which raises `ConflictingIdError` on a duplicate id —
only the call with `id=job_id` is in the source).  Adding a job whose id
is already registered is an error; otherwise the id is stored. -/
def registerJobId (registered : List String) (jobId : String) :
    Except String (List String) :=
  if jobId ∈ registered then
    Except.error ("ConflictingIdError: " ++ jobId)
  else
    Except.ok (registered ++ [jobId])

/-- One spawn config entry as consumed by `_add_spawn_schedule`
(config.py `SPAWN_CONFIGS`). -/
structure SpawnConfig where
  name : String
  intervalHours : Int
  jobId : String
  followupJobId : String
  deriving Repr, DecidableEq

/-- `SpawnSchedulerManager._add_spawn_schedule` at the registration level
(scheduler_manager.py lines 43-131): computes the trigger pair, then
registers the warning job id and the follow-up job id; any exception is
logged and re-raised (`raise` at line 131), i.e. errors propagate. -/
def addSpawnScheduleReg (anchorHour anchorMinute : Nat) (cfg : SpawnConfig)
    (now : DateTime) (registered : List String) :
    Except String (List String) :=
  match addSpawnSchedule anchorHour anchorMinute cfg.intervalHours now with
  | Except.error e => Except.error e
  | Except.ok _ =>
      match registerJobId registered cfg.jobId with
      | Except.error e => Except.error e
      | Except.ok r1 => registerJobId r1 cfg.followupJobId

/-- `SpawnSchedulerManager.setup_schedules` (scheduler_manager.py lines
29-41): registers every config in order; any exception is logged and
re-raised, so the first setup error propagates to the caller. -/
def setupSchedules (anchorHour anchorMinute : Nat) (cfgs : List SpawnConfig)
    (now : DateTime) : Except String (List String) :=
  cfgs.foldlM (fun reg cfg => addSpawnScheduleReg anchorHour anchorMinute cfg now reg) []

/-- State of `SpawnSchedulerManager` for `start`/`stop`: the `is_running`
flag from the source, plus the number of active timing loops of the
underlying scheduler (modelled from the spec, §5: `scheduler.start()`
begins the loop, `scheduler.shutdown(wait=True)` halts it). -/
structure ManagerState where
  is_running : Bool
  activeLoops : Nat
  deriving Repr, DecidableEq

/-- `SpawnSchedulerManager.start` (lines 149-162): only if `is_running`
is false does it start the scheduler (one new timing loop) and set the
flag; otherwise nothing happens. -/
def managerStart (s : ManagerState) : ManagerState :=
  if s.is_running then s
  else { is_running := true, activeLoops := s.activeLoops + 1 }

/-- `SpawnSchedulerManager.stop` (lines 164-173): only if `is_running`
is true does it shut the scheduler down (ending its timing loop) and
clear the flag; otherwise nothing happens (and any exception is
swallowed, so a second call is safe). -/
def managerStop (s : ManagerState) : ManagerState :=
  if s.is_running then
    { is_running := false, activeLoops := s.activeLoops - 1 }
  else s

/-- Initial state after `__init__`: scheduler built but not started. -/
def initialManagerState : ManagerState := ⟨false, 0⟩

/-- Modelled from the spec: observable events of the timing loop and the
shutdown path (§5).  `fireStart`/`fireEnd` bracket a job callback,
`dispatchEvt` is the notification actually being sent inside the
callback, and `stopReturn` is `stop()` returning to its caller after
`scheduler.shutdown(wait=True)` has drained in-flight callbacks. -/
inductive LoopEvent where
  | fireStart
  | dispatchEvt
  | fireEnd
  | stopReturn
  deriving Repr, DecidableEq

/-- Modelled from the spec: loop state — whether the registry is running
and how many callbacks are in flight (at most one per job;
`max_instances=1`). -/
structure LoopState where
  running : Bool
  inFlight : Nat
  deriving Repr, DecidableEq

/-- Modelled from the spec: the guarded small-step transition of the
timing loop.  A fire can only start while the registry runs and no
callback of the job is in flight; a dispatch happens only inside an
in-flight callback; `stopReturn` is only possible once no callback is in
flight — `shutdown(wait=True)` does not return before the in-flight
callback completes (§5, graceful drain). -/
def loopStep (s : LoopState) (e : LoopEvent) : Option LoopState :=
  match e with
  | LoopEvent.fireStart =>
      if s.running ∧ s.inFlight = 0 then some { s with inFlight := 1 } else none
  | LoopEvent.dispatchEvt =>
      if s.inFlight = 1 then some s else none
  | LoopEvent.fireEnd =>
      if s.inFlight = 1 then some { s with inFlight := 0 } else none
  | LoopEvent.stopReturn =>
      if s.inFlight = 0 then some { s with running := false } else none

/-- Run a sequence of loop events from a state; `none` means the
sequence is not a possible behaviour. -/
def runLoop (s : LoopState) : List LoopEvent → Option LoopState
  | [] => some s
  | e :: es =>
      match loopStep s e with
      | none => none
      | some s' => runLoop s' es

/-- The loop state right after `start()`: registry running, no callback
in flight. -/
def startedLoopState : LoopState := ⟨true, 0⟩

/-- Error classes of the chat transport caught by
`DiscordBot.send_spawn_message` (bot.py lines 122-127):
`discord.Forbidden`, `discord.HTTPException`, and any other exception. -/
inductive DiscordError where
  | forbidden
  | httpException (msg : String)
  | other (msg : String)
  deriving Repr, DecidableEq

/-- Observable outcome of `DiscordBot.send_spawn_message`: the exception
it lets escape to the scheduler (if any), whether the channel send
succeeded, and the log lines produced. -/
structure SendOutcome where
  raised : Option DiscordError
  sent : Bool
  logs : List String
  deriving Repr, DecidableEq

/-- `DiscordBot.send_spawn_message` (bot.py lines 98-127): if no target
channel has been resolved it logs and returns; otherwise it sends the
embed and catches `discord.Forbidden`, `discord.HTTPException` and every
other exception, logging each.  `targetChannel` is the resolved channel
reference (if any) and `channelSend` the outcome `channel.send` would
produce. -/
def sendSpawnMessage (targetChannel : Option Nat)
    (channelSend : Except DiscordError Unit) (message : String) : SendOutcome :=
  match targetChannel with
  | none => ⟨none, false, ["Target channel not available"]⟩
  | some _ =>
      match channelSend with
      | Except.ok _ => ⟨none, true, ["Spawn message sent: " ++ message]⟩
      | Except.error DiscordError.forbidden =>
          ⟨none, false,
           ["Bot does not have permission to send messages to the target channel"]⟩
      | Except.error (DiscordError.httpException e) =>
          ⟨none, false, ["Failed to send message due to HTTP error: " ++ e]⟩
      | Except.error (DiscordError.other e) =>
          ⟨none, false, ["Unexpected error sending message: " ++ e]⟩

/-! ## Theorems -/

/-- Sanity scenario from the design document: anchor 12:10, interval 3h,
now 14:00 gives first fire 15:10 the same day. -/
theorem scenario_afternoon_next_grid_point :
    resolveFirstFire 12 10 3 ⟨2025, 6, 15, 14, 0, 0⟩
      = Except.ok ⟨2025, 6, 15, 15, 10, 0⟩ := rfl

/-- C1: the first-fire computation is claimed to return, for every `now`
and every `intervalHours >= 1`, the smallest anchor-grid point strictly
after `now`.  The code instead raises `ValueError` whenever the grid
point falls past the end of the current month: at
`now = 2025-01-31 23:30:00` with anchor 12:10 and interval 2h the
correct grid point is 2025-02-01 00:10, but the day-rollover arithmetic
calls `datetime.replace(day=32)`, which raises. -/
theorem c1_first_fire_month_rollover_value_error :
    resolveFirstFire 12 10 2 ⟨2025, 1, 31, 23, 30, 0⟩
      = Except.error "ValueError: day is out of range for month" := rfl

/-- C10: `send_spawn_message` never propagates an exception to the
scheduler — for every channel state and every transport outcome it
returns normally, and with no resolved target channel nothing is sent. -/
theorem c10_send_spawn_message_never_raises
    (targetChannel : Option Nat) (channelSend : Except DiscordError Unit)
    (message : String) :
    (sendSpawnMessage targetChannel channelSend message).raised = none
      ∧ (sendSpawnMessage none channelSend message).sent = false := by
  constructor
  · cases targetChannel with
    | none => rfl
    | some c =>
        cases channelSend with
        | ok u => rfl
        | error e => cases e <;> rfl
  · rfl

/-- C8: `start()` is idempotent — a second call on a running manager is
a no-op, and starting from the initial state leaves exactly one active
timing loop even after repeated calls; `stop()` is likewise idempotent
and safe when already stopped. -/
theorem c8_start_stop_idempotent :
    (∀ s, managerStart (managerStart s) = managerStart s)
      ∧ (managerStart initialManagerState).activeLoops = 1
      ∧ (managerStart (managerStart initialManagerState)).activeLoops = 1
      ∧ (∀ s, managerStop (managerStop s) = managerStop s) := by
  refine ⟨?_, rfl, rfl, ?_⟩
  · intro s
    by_cases h : s.is_running
    · simp [managerStart, h]
    · simp [managerStart, h]
  · intro s
    by_cases h : s.is_running
    · simp [managerStop, h]
    · simp [managerStop, h]

/-- C2: for every registered spec, the follow-up trigger built by
`_add_spawn_schedule` starts exactly 5 minutes (300 s) after the warning
trigger and recurs on the same `interval_hours`, so every cycle's
follow-up fire is exactly 300 s after the paired warning fire. -/
theorem c2_followup_five_minutes_after_warning
    (anchorHour anchorMinute : Nat) (intervalHours : Int) (now : DateTime)
    (warn foll : IntervalTriggerE)
    (h : addSpawnSchedule anchorHour anchorMinute intervalHours now
          = Except.ok (warn, foll)) :
    (∀ n : Nat, nthFire foll n = nthFire warn n + 300)
      ∧ foll.intervalHours = warn.intervalHours := by
  unfold addSpawnSchedule at h
  cases hr : resolveFirstFire anchorHour anchorMinute intervalHours now with
  | error e => rw [hr] at h; exact absurd h (by simp)
  | ok start =>
      rw [hr] at h
      simp only [Except.ok.injEq, Prod.mk.injEq] at h
      obtain ⟨hw, hf⟩ := h
      subst hw; subst hf
      refine ⟨?_, rfl⟩
      intro n
      unfold nthFire
      ring

/-- C2 witness: concrete instantiation — anchor 12:10, interval 2h,
registration at 2025-06-15 09:00, cycle 7. -/
theorem c2_followup_five_minutes_after_warning_witness :
    nthFire ⟨toEpochSecs ⟨2025, 6, 15, 12, 10, 0⟩ + 300, 2⟩ 7
      = nthFire ⟨toEpochSecs ⟨2025, 6, 15, 12, 10, 0⟩, 2⟩ 7 + 300 :=
  (c2_followup_five_minutes_after_warning 12 10 2 ⟨2025, 6, 15, 9, 0, 0⟩
    ⟨toEpochSecs ⟨2025, 6, 15, 12, 10, 0⟩, 2⟩
    ⟨toEpochSecs ⟨2025, 6, 15, 12, 10, 0⟩ + 300, 2⟩ rfl).1 7

/-- C7 counterexample: a spec with `interval_hours = 0` (invalid, `< 1`)
registered at 2025-06-15 09:00 — before the day's 12:10 anchor — goes
through registration without any error: both job ids are stored and no
exception is raised, so the process starts running with a malformed
schedule. -/
theorem c7_invalid_interval_registration_succeeds :
    addSpawnScheduleReg 12 10
        ⟨"Temintia Misterioasa V5", 0, "temintia_spawn", "temintia_followup"⟩
        ⟨2025, 6, 15, 9, 0, 0⟩ []
      = Except.ok ["temintia_spawn", "temintia_followup"] := rfl

/-- C7 (amended): a duplicate job id always makes registration fail with
an error propagated to the caller (whatever the trigger computation
does); invalid intervals are not validated (see the counterexample). -/
theorem c7_duplicate_id_error_propagates
    (anchorHour anchorMinute : Nat) (cfg : SpawnConfig) (now : DateTime)
    (registered : List String) (h : cfg.jobId ∈ registered) :
    ∃ e, addSpawnScheduleReg anchorHour anchorMinute cfg now registered
          = Except.error e := by
  unfold addSpawnScheduleReg
  cases addSpawnSchedule anchorHour anchorMinute cfg.intervalHours now with
  | error e => exact ⟨e, rfl⟩
  | ok pair =>
      refine ⟨"ConflictingIdError: " ++ cfg.jobId, ?_⟩
      simp [registerJobId, h]

/-- C7 witness: registering the Temintia spec a second time (its warning
id already present) fails with a propagated error. -/
theorem c7_duplicate_id_error_propagates_witness :
    ∃ e, addSpawnScheduleReg 12 10
            ⟨"Temintia Misterioasa V5", 2, "temintia_spawn", "temintia_followup"⟩
            ⟨2025, 6, 15, 9, 0, 0⟩ ["temintia_spawn", "temintia_followup"]
          = Except.error e :=
  c7_duplicate_id_error_propagates 12 10
    ⟨"Temintia Misterioasa V5", 2, "temintia_spawn", "temintia_followup"⟩
    ⟨2025, 6, 15, 9, 0, 0⟩ ["temintia_spawn", "temintia_followup"]
    (by simp)

/-- C4: a job never overlaps itself — when its due time is evaluated
while the previous invocation is still executing (`running = true`), the
occurrence is skipped entirely: zero notifications are dispatched, the
occurrence is not queued (its time is strictly passed, never to be
executed), whatever the callback would have produced. -/
theorem c4_no_self_overlap_skip_not_queue
    (regRunning : Bool) (j : Job) (now : Int) (cb : Except String Unit)
    (hrun : j.running = true) (hI : 1 ≤ j.intervalHours) :
    firingProtocol regRunning j now cb
        = Except.ok (regRunning, { j with nextFire := j.nextFire + 3600 * j.intervalHours }, 0)
      ∧ j.nextFire < j.nextFire + 3600 * j.intervalHours := by
  constructor
  · unfold firingProtocol
    simp [hrun]
  · have : (0 : Int) < 3600 * j.intervalHours := by positivity
    omega

/-- C4 witness: a job whose callback is still running at its due time. -/
theorem c4_no_self_overlap_skip_not_queue_witness :
    firingProtocol true ⟨"temintia_spawn", 1000, 2, true⟩ 1000 (Except.ok ())
        = Except.ok (true, ⟨"temintia_spawn", 8200, 2, true⟩, 0)
      ∧ (1000 : Int) < 1000 + 3600 * 2 := by
  have h := c4_no_self_overlap_skip_not_queue true
    ⟨"temintia_spawn", 1000, 2, true⟩ 1000 (Except.ok ()) rfl (by norm_num)
  exact ⟨h.1, h.2⟩

/-- C5: on a normal (non-coalesced) fire whose dispatch callback raises,
the error is caught and logged inside `_send_spawn_notification` — the
firing step returns normally (never `Except.error`), exactly one
dispatch is attempted (no retry of the occurrence), the job's next fire
time advances by exactly `intervalHours`, and the registry running flag
is returned unchanged. -/
theorem c5_dispatch_error_swallowed_advances
    (regRunning : Bool) (j : Job) (now : Int) (e : String)
    (hrun : j.running = false) (hdue : j.nextFire ≤ now)
    (hsingle : ¬(60 < now - j.nextFire ∧ j.nextFire + 3600 * j.intervalHours ≤ now)) :
    firingProtocol regRunning j now (Except.error e)
      = Except.ok (regRunning,
          { j with nextFire := j.nextFire + 3600 * j.intervalHours,
                   running := false }, 1) := by
  unfold firingProtocol sendSpawnNotification
  simp [hrun, not_lt.mpr hdue, hsingle]

/-- C5 witness: a permission error thrown by the dispatch callback at an
on-time fire — swallowed, one dispatch, next fire advanced by 2h,
registry still running. -/
theorem c5_dispatch_error_swallowed_advances_witness :
    firingProtocol true ⟨"temintia_spawn", 1000, 2, false⟩ 1030
        (Except.error "discord.Forbidden")
      = Except.ok (true, ⟨"temintia_spawn", 1000 + 3600 * 2, 2, false⟩, 1) :=
  c5_dispatch_error_swallowed_advances true ⟨"temintia_spawn", 1000, 2, false⟩
    1030 "discord.Forbidden" rfl (by norm_num) (by norm_num)

/-- C3: when a job wakes up late by more than the 60-second misfire
grace and at least one later occurrence is also due (the process was
paused across N >= 1 missed occurrences), exactly one notification is
dispatched and the next fire time lands on the unique anchor-grid point
strictly in the future — strictly after `now`, while its predecessor
grid point is not after `now` — skipping every missed occurrence. -/
theorem c3_coalesce_single_fire_future_grid
    (regRunning : Bool) (j : Job) (now : Int) (cb : Except String Unit)
    (hrun : j.running = false) (hI : 1 ≤ j.intervalHours)
    (hlate : 60 < now - j.nextFire)
    (hdue2 : j.nextFire + 3600 * j.intervalHours ≤ now) :
    ∃ q : Int,
      firingProtocol regRunning j now cb
          = Except.ok (regRunning,
              { j with nextFire := j.nextFire + (q + 1) * (3600 * j.intervalHours),
                       running := false }, 1)
        ∧ now < j.nextFire + (q + 1) * (3600 * j.intervalHours)
        ∧ j.nextFire + q * (3600 * j.intervalHours) ≤ now := by
  have hstep : (0 : Int) < 3600 * j.intervalHours := by positivity
  have hdue : j.nextFire ≤ now := by omega
  refine ⟨(now - j.nextFire).fdiv (3600 * j.intervalHours), ?_, ?_, ?_⟩
  · unfold firingProtocol
    have hcoal : 60 < now - j.nextFire ∧ j.nextFire + 3600 * j.intervalHours ≤ now :=
      ⟨hlate, hdue2⟩
    cases cb with
    | ok u => simp [hrun, not_lt.mpr hdue, hcoal, sendSpawnNotification]
    | error e => simp [hrun, not_lt.mpr hdue, hcoal, sendSpawnNotification]
  · have := Int.lt_fdiv_add_one_mul_self (now - j.nextFire) hstep
    omega
  · have hmod := Int.fdiv_add_fmod (now - j.nextFire) (3600 * j.intervalHours)
    have hnn := Int.fmod_nonneg' (now - j.nextFire) hstep
    have : ((now - j.nextFire).fdiv (3600 * j.intervalHours)) * (3600 * j.intervalHours)
        ≤ now - j.nextFire := by
      nlinarith [hmod, hnn]
    omega

/-- C3 witness: a job with a 2h interval, grid at 0, 7200, 14400, ...,
woken at `now = 10000` after missing the occurrences at 0 and 7200 —
one dispatch, next fire 14400 (the first grid point after 10000). -/
theorem c3_coalesce_single_fire_future_grid_witness :
    ∃ q : Int,
      firingProtocol true ⟨"temintia_spawn", 0, 2, false⟩ 10000 (Except.ok ())
          = Except.ok (true,
              { (⟨"temintia_spawn", 0, 2, false⟩ : Job) with
                  nextFire := 0 + (q + 1) * (3600 * 2), running := false }, 1)
        ∧ (10000 : Int) < 0 + (q + 1) * (3600 * 2)
        ∧ (0 : Int) + q * (3600 * 2) ≤ 10000 :=
  c3_coalesce_single_fire_future_grid true ⟨"temintia_spawn", 0, 2, false⟩
    10000 (Except.ok ()) rfl (by norm_num) (by norm_num) (by norm_num)

/-- C9: the resolver treats `now` exactly at the anchor as already due
(strict `>` comparison): for every calendar date, with anchor 12:10 and
interval 2h, evaluating at exactly 12:10:00 schedules the next period —
14:10 the same day — not the current instant. -/
theorem c9_exact_anchor_schedules_next_period (y : Int) (m d : Nat) :
    resolveFirstFire 12 10 2 ⟨y, m, d, 12, 10, 0⟩
      = Except.ok ⟨y, m, d, 14, 10, 0⟩ := by
  unfold resolveFirstFire
  norm_num
  rfl

/-- Helper: from a stopped, drained loop state no fire can start, so no
dispatch event can occur in any continuing behaviour. -/
theorem runLoop_stopped_no_dispatch (evs : List LoopEvent) :
    ∀ s s' : LoopState, s.running = false → s.inFlight = 0 →
      runLoop s evs = some s' → LoopEvent.dispatchEvt ∉ evs := by
  induction evs with
  | nil => intro s s' _ _ _; simp
  | cons e es ih =>
      intro s s' hrun hfl hruns
      simp only [runLoop] at hruns
      cases e with
      | fireStart => simp [loopStep, hrun] at hruns
      | dispatchEvt => simp [loopStep, hfl] at hruns
      | fireEnd => simp [loopStep, hfl] at hruns
      | stopReturn =>
          simp only [loopStep, hfl, if_pos] at hruns
          have hnotin := ih ⟨false, 0⟩ s' rfl rfl hruns
          simp [List.mem_cons, hnotin]

/-- Helper: running an event list splits across append. -/
theorem runLoop_append (as : List LoopEvent) :
    ∀ (s : LoopState) (bs : List LoopEvent),
      runLoop s (as ++ bs)
        = Option.bind (runLoop s as) (fun s' => runLoop s' bs) := by
  induction as with
  | nil => intro s bs; simp [runLoop]
  | cons a as ih =>
      intro s bs
      simp only [List.cons_append, runLoop]
      cases h : loopStep s a with
      | none => simp
      | some s' => simp [ih s']

/-- C6: in every possible behaviour of the timing loop that contains a
`stop()` return, no notification is dispatched after `stop()` returns,
and at the moment `stop()` returns the in-flight callback count is zero —
`shutdown(wait=True)` waited for the in-flight dispatch to complete. -/
theorem c6_stop_waits_and_no_dispatch_after
    (pre post : List LoopEvent) (s : LoopState)
    (h : runLoop startedLoopState (pre ++ LoopEvent.stopReturn :: post) = some s) :
    LoopEvent.dispatchEvt ∉ post
      ∧ ∀ s₁, runLoop startedLoopState pre = some s₁ → s₁.inFlight = 0 := by
  rw [runLoop_append] at h
  cases hpre : runLoop startedLoopState pre with
  | none => rw [hpre] at h; simp at h
  | some s₁ =>
      rw [hpre] at h
      simp only [Option.some_bind, runLoop, loopStep] at h
      by_cases hfl : s₁.inFlight = 0
      · rw [if_pos hfl] at h
        constructor
        · exact runLoop_stopped_no_dispatch post { s₁ with running := false } s
            rfl hfl h
        · intro s₂ hs₂
          injection hs₂ with h'
          subst h'
          exact hfl
      · rw [if_neg hfl] at h
        exact absurd h (by simp)

/-- C6 witness: the behaviour "fire starts, dispatch, fire ends, stop
returns, (idempotent) stop returns again" — valid, with no dispatch
after the stop return and nothing in flight when stop returned. -/
theorem c6_stop_waits_and_no_dispatch_after_witness :
    LoopEvent.dispatchEvt ∉ [LoopEvent.stopReturn]
      ∧ (⟨true, 0⟩ : LoopState).inFlight = 0 := by
  have h := c6_stop_waits_and_no_dispatch_after
    [LoopEvent.fireStart, LoopEvent.dispatchEvt, LoopEvent.fireEnd]
    [LoopEvent.stopReturn] ⟨false, 0⟩ rfl
  exact ⟨h.1, h.2 ⟨true, 0⟩ rfl⟩
